import Mathlib

/-!
Verification of the download-manager core of `VD.py` (Video-Downloader).

The Python source is shallowly embedded below.  String manipulation from the
Python standard library (`str.strip`, `str.split`, `str.lower`,
`str.endswith`, `urllib.parse.urlparse(...).path`, `urllib.parse.unquote`,
`os.path.basename`) is modelled by structurally recursive functions on
`List Char`, so that every definition evaluates by kernel reduction.
-/

namespace VD

/-- Whitespace as recognized by Python's `str.strip` (ASCII range). -/
def isPyWhitespace (c : Char) : Bool :=
  c = ' ' || c = '\t' || c = '\n' || c = '\x0d' || c = '\x0b' || c = '\x0c'

/-- Model of Python `str.strip` on a character list: drop whitespace at both ends. -/
def pyStripChars (l : List Char) : List Char :=
  ((l.dropWhile isPyWhitespace).reverse.dropWhile isPyWhitespace).reverse

/-- Model of Python `str.strip` on strings. -/
def pyStrip (s : String) : String :=
  String.mk (pyStripChars s.data)

/-- Auxiliary for `pySplitChars`: split at every occurrence of `sep`, keeping
empty pieces, like Python's `str.split(sep)`. -/
def pySplitAux (sep : Char) : List Char → List Char → List (List Char)
  | [], acc => [acc.reverse]
  | c :: rest, acc =>
    if c = sep then acc.reverse :: pySplitAux sep rest []
    else pySplitAux sep rest (c :: acc)

/-- Model of Python `str.split(sep)` for a one-character separator. -/
def pySplitChars (sep : Char) (l : List Char) : List (List Char) :=
  pySplitAux sep l []

/-- Model of Python `str.lower` (ASCII letters). -/
def pyLower (s : String) : String :=
  String.mk (s.data.map Char.toLower)

/-- Does the character list `l` end with `suffix`? -/
def listEndsWith (l suffix : List Char) : Bool :=
  l.reverse.take suffix.length == suffix.reverse

/-- Model of Python `str.endswith`. -/
def py_endswith (s suffix : String) : Bool :=
  listEndsWith s.data suffix.data

/-- Numeric value of a hexadecimal digit character. -/
def hexVal (c : Char) : Nat :=
  if c.isDigit then c.toNat - 48
  else if 'a' ≤ c ∧ c ≤ 'f' then c.toNat - 87
  else if 'A' ≤ c ∧ c ≤ 'F' then c.toNat - 55
  else 0

/-- Is `c` a hexadecimal digit? -/
def isHexDig (c : Char) : Bool :=
  c.isDigit || (('a' ≤ c) && (c ≤ 'f')) || (('A' ≤ c) && (c ≤ 'F'))

/-- Percent-decoding of a character list, modelling `urllib.parse.unquote`
for ASCII data: a valid `%XX` sequence becomes the character with code `XX`,
an invalid `%` is kept literally. -/
def unquoteChars : List Char → List Char
  | [] => []
  | '%' :: a :: b :: rest =>
    if isHexDig a && isHexDig b then
      Char.ofNat (16 * hexVal a + hexVal b) :: unquoteChars rest
    else '%' :: unquoteChars (a :: b :: rest)
  | c :: rest => c :: unquoteChars rest

/-- Model of `urllib.parse.unquote` on strings (ASCII data). -/
def unquote (s : String) : String :=
  String.mk (unquoteChars s.data)

/-- Find the first occurrence of the scheme marker `://` and return what
follows it, if present. -/
def afterSchemeMarker : List Char → Option (List Char)
  | ':' :: '/' :: '/' :: rest => some rest
  | _ :: rest => afterSchemeMarker rest
  | [] => none

/-- Model of `urllib.parse.urlparse(url).path` for absolute
`scheme://host/path?query#fragment`-style URLs: the portion after the
authority component, truncated at the first `?` or `#`.  When the URL has no
`://`, the whole string up to the first `?` or `#` is the path. -/
def urlparse_path (url : String) : String :=
  match afterSchemeMarker url.data with
  | some rest =>
    String.mk ((rest.dropWhile (fun c => (c != '/') && (c != '?') && (c != '#'))).takeWhile
      (fun c => (c != '?') && (c != '#')))
  | none =>
    String.mk (url.data.takeWhile (fun c => (c != '?') && (c != '#')))

/-- Model of `os.path.basename` (POSIX): the part after the last `/`. -/
def os_basename (p : String) : String :=
  String.mk (((p.data.reverse.takeWhile (fun c => c != '/'))).reverse)

/-! ## Data model (`DownloadStatus`, `DownloadInfo`) -/

/-- The `DownloadStatus` enum of `VD.py`. -/
inductive DownloadStatus
  | queued
  | downloading
  | paused
  | completed
  | error
  | cancelled
deriving DecidableEq, Repr

/-- The mutable flags of a `DownloadThread` object (`is_paused`, `is_cancelled`). -/
structure DownloadThreadState where
  is_paused : Bool
  is_cancelled : Bool
deriving DecidableEq, Repr

/-- The `DownloadInfo` dataclass of `VD.py`.  The `thread` field holds the
worker's flag state when a thread object is attached. -/
structure DownloadInfo where
  url : String
  status : DownloadStatus
  progress : Rat
  filename : String
  thread : Option DownloadThreadState := none
  size : String := "Unknown"
  speed : String := "0 MB/s"
  eta : String := "Unknown"
deriving DecidableEq, Repr

/-! ## The manager's state and operations (`VideoDownloaderGUI`)

The `downloads` dict (insertion-ordered, keyed by the `url` field) is
modelled as a `List DownloadInfo`. -/

/-- Dictionary lookup `self.downloads.get(url)`. -/
def lookupDownload (s : List DownloadInfo) (url : String) : Option DownloadInfo :=
  s.find? (fun d => d.url == url)

/-- In-place mutation of the entry stored under `url` (Python mutates the
`DownloadInfo` object obtained from the dict). -/
def updateDownload (s : List DownloadInfo) (url : String)
    (f : DownloadInfo → DownloadInfo) : List DownloadInfo :=
  s.map (fun d => if d.url == url then f d else d)

/-- `VideoDownloaderGUI.start_download` (lines 516-534): attaches a fresh
`DownloadThread` (both flags `False`) and sets the status to `DOWNLOADING`. -/
def start_download (s : List DownloadInfo) (url : String) : List DownloadInfo :=
  updateDownload s url (fun d =>
    { d with thread := some { is_paused := false, is_cancelled := false },
             status := DownloadStatus.downloading })

/-- The body of the `for url in urls` loop of `add_download`
(lines 490-511): strip the URL again; when non-empty and not already a key
of `downloads`, insert a fresh queued `DownloadInfo` and start its download. -/
def addOneUrl (s : List DownloadInfo) (url : String) : List DownloadInfo :=
  let url := pyStrip url
  if (!url.data.isEmpty) && (lookupDownload s url).isNone then
    start_download
      (s ++ [{ url := url, status := DownloadStatus.queued, progress := 0,
               filename := "Pending..." }]) url
  else s

/-- URL splitting performed by `add_download` (lines 484-489): strip the raw
text, split on newlines, split each line on commas, strip each piece and
drop the empty ones. -/
def splitUrls (raw : String) : List String :=
  ((pySplitChars '\n' (pyStripChars raw.data)).flatMap
    (fun line => ((pySplitChars ',' line).map pyStripChars).filter
      (fun u => !u.isEmpty))).map String.mk

/-- `VideoDownloaderGUI.add_download` (lines 483-514). -/
def add_download (s : List DownloadInfo) (raw : String) : List DownloadInfo :=
  (splitUrls raw).foldl addOneUrl s

/-- `VideoDownloaderGUI.toggle_pause` (lines 554-569): only acts when the
entry exists and has a thread; `DOWNLOADING` becomes `PAUSED` with the
thread's `is_paused` flag set, `PAUSED` becomes `DOWNLOADING` with the flag
cleared; any other status is left untouched. -/
def toggle_pause (s : List DownloadInfo) (url : String) : List DownloadInfo :=
  match lookupDownload s url with
  | none => s
  | some d =>
    match d.thread with
    | none => s
    | some _ =>
      if d.status = DownloadStatus.downloading then
        updateDownload s url (fun d' =>
          { d' with status := DownloadStatus.paused,
                    thread := d'.thread.map (fun t => { t with is_paused := true }) })
      else if d.status = DownloadStatus.paused then
        updateDownload s url (fun d' =>
          { d' with status := DownloadStatus.downloading,
                    thread := d'.thread.map (fun t => { t with is_paused := false }) })
      else s

/-- `VideoDownloaderGUI.cancel_download` (lines 571-590): when the entry
exists and has a thread, set the thread's `is_cancelled` flag and record
status `CANCELLED`; no status check is performed first. -/
def cancel_download (s : List DownloadInfo) (url : String) : List DownloadInfo :=
  match lookupDownload s url with
  | none => s
  | some d =>
    match d.thread with
    | none => s
    | some _ =>
      updateDownload s url (fun d' =>
        { d' with thread := d'.thread.map (fun t => { t with is_cancelled := true }),
                  status := DownloadStatus.cancelled })

/-- `VideoDownloaderGUI.download_finished` (lines 624-653): when the entry
exists, unconditionally overwrite its status with `COMPLETED` (success) or
`ERROR` (failure); the source performs the same assignment twice. -/
def download_finished (s : List DownloadInfo) (url : String) (success : Bool) :
    List DownloadInfo :=
  match lookupDownload s url with
  | none => s
  | some _ =>
    updateDownload s url (fun d' =>
      { d' with status := if success then DownloadStatus.completed
                          else DownloadStatus.error })

/-- The `completed_statuses` list of `clear_completed_downloads` (line 594). -/
def completed_statuses : List DownloadStatus :=
  [DownloadStatus.completed, DownloadStatus.cancelled, DownloadStatus.error]

/-- `VideoDownloaderGUI.clear_completed_downloads` (lines 592-622): collect
the urls whose status is terminal, delete each collected url from the dict,
and report how many were removed. -/
def clear_completed_downloads (s : List DownloadInfo) : List DownloadInfo × Nat :=
  let urls_to_remove :=
    (s.filter (fun d => completed_statuses.contains d.status)).map DownloadInfo.url
  (urls_to_remove.foldl (fun m u => m.filter (fun d => d.url != u)) s,
   urls_to_remove.length)

/-! ## The worker (`DownloadThread`) -/

/-- The `video_extensions` list of `DownloadThread.is_direct_link` (line 48). -/
def video_extensions : List String :=
  [".mp4", ".webm", ".mkv", ".avi", ".mov", ".flv"]

/-- `DownloadThread.is_direct_link` (lines 46-49): the check is
`self.url.lower().endswith(ext)` — it inspects the WHOLE url string, query
and fragment included, not the url's path component. -/
def is_direct_link (url : String) : Bool :=
  video_extensions.any (fun ext => py_endswith (pyLower url) ext)

/-- Modelled from the spec, for comparison with `is_direct_link`: the URL's
PATH component (as `urlparse` extracts it) ends in a known video file
extension, case-insensitively. -/
def spec_path_ends_in_video_ext (url : String) : Bool :=
  video_extensions.any (fun ext => py_endswith (pyLower (urlparse_path url)) ext)

/-- Filename derivation of `DownloadThread.download_with_requests`
(lines 66-71): percent-decoded basename of the url's path.  The fallback
branch evaluates `f'video_{int(time.time())}.mp4'`, but the module never
imports `time`, so the code raises `NameError` instead of producing the
timestamp name; the raise is modelled as an error value. -/
def requests_file_name (url : String) : Except String String :=
  let file_name := unquote (os_basename (urlparse_path url))
  if !file_name.data.isEmpty then Except.ok file_name
  else Except.error "NameError"

/-- Outcome of `DownloadThread.download_with_requests` as far as filename
derivation is concerned: a `NameError` from the fallback name propagates to
the surrounding `except`, which returns `False`; otherwise the outcome is
that of the transfer itself (supplied as an oracle). -/
def download_with_requests_outcome (url : String) (transferOk : Bool) : Bool :=
  match requests_file_name url with
  | Except.error _ => false
  | Except.ok _ => transferOk

/-- Filename derivation of `DownloadThread.download_with_urllib`
(lines 118-122); the source duplicates the lines of
`download_with_requests`, the unimported `time` included. -/
def urllib_file_name (url : String) : Except String String :=
  let file_name := unquote (os_basename (urlparse_path url))
  if !file_name.data.isEmpty then Except.ok file_name
  else Except.error "NameError"

/-- Outcome of `DownloadThread.download_with_urllib` under the same
filename-derivation modelling as `download_with_requests_outcome`. -/
def download_with_urllib_outcome (url : String) (transferOk : Bool) : Bool :=
  match urllib_file_name url with
  | Except.error _ => false
  | Except.ok _ => transferOk

/-- Percentage computed per chunk in `download_with_requests` (line 91):
`(downloaded / total_size) * 100`, emitted unclamped. -/
def requests_progress_percent (downloaded total_size : Nat) : Rat :=
  ((downloaded : Rat) / (total_size : Rat)) * 100

/-- Percentage computed in the `report_progress` callback of
`download_with_urllib` (lines 130-144): emitted only when `total_size > 0`
(urlretrieve passes `-1` when the length is unknown), as
`(count * block_size / total_size) * 100`, unclamped — on the final block
`count * block_size` generally exceeds `total_size`. -/
def report_progress_percent (count block_size total_size : Int) : Option Rat :=
  if total_size > 0 then
    some ((((count * block_size : Int) : Rat) / (total_size : Rat)) * 100)
  else none

/-! ## The worker's strategy fallback chain (`DownloadThread.run`)

`run` (lines 157-201) is embedded as a function of an oracle describing the
behaviour of each strategy attempt and the value of the `is_cancelled` flag
at each of the points where `run` reads it. -/

/-- The three retrieval strategies, in the spec's vocabulary: `rich` is the
yt-dlp attempt, `chunked` is `download_with_requests`, `simple` is
`download_with_urllib`. -/
inductive Strategy
  | rich
  | chunked
  | simple
deriving DecidableEq, Repr

/-- What a single strategy attempt did: completed normally (`ok`), failed
with an error (`failed`), or observed the cancel flag mid-transfer and
aborted (`cancelledMid`). -/
inductive AttemptOutcome
  | ok
  | failed
  | cancelledMid
deriving DecidableEq, Repr

/-- An event emitted on the worker's signals: a progress percentage on
`progress_signal`, or a terminal success/failure on `finished_signal`. -/
inductive Event
  | prog (percent : Rat)
  | fin (success : Bool)
deriving DecidableEq, Repr

/-- Is this event a terminal (`finished_signal`) event? -/
def Event.isFin : Event → Bool
  | Event.fin _ => true
  | Event.prog _ => false

/-- Oracle for one execution of `DownloadThread.run`: the outcome and
progress emissions of each strategy attempt, and the value of
`is_cancelled` at the three points where `run` reads the flag (`c1` right
after the yt-dlp attempt, `c2` after a successful `download_with_requests`,
`c3` after `download_with_urllib` / at the final check). -/
structure RunOracle where
  rich : AttemptOutcome
  richProg : List Rat
  c1 : Bool
  requests : AttemptOutcome
  requestsProg : List Rat
  c2 : Bool
  urllib : AttemptOutcome
  urllibProg : List Rat
  c3 : Bool
deriving DecidableEq, Repr

/-- Consistency of an oracle with the monotone `is_cancelled` flag: the flag
is never cleared, and a strategy only reports a mid-transfer cancellation
when the flag is indeed set at the following read. -/
def RunOracle.wf (o : RunOracle) : Prop :=
  (o.rich = AttemptOutcome.cancelledMid → o.c1 = true) ∧
  (o.c1 = true → o.c2 = true) ∧
  (o.requests = AttemptOutcome.cancelledMid → o.c2 = true) ∧
  (o.c2 = true → o.c3 = true) ∧
  (o.urllib = AttemptOutcome.cancelledMid → o.c3 = true)

/-- Oracle consistency is a decidable property. -/
instance (o : RunOracle) : Decidable o.wf :=
  inferInstanceAs (Decidable
    ((o.rich = AttemptOutcome.cancelledMid → o.c1 = true) ∧
     (o.c1 = true → o.c2 = true) ∧
     (o.requests = AttemptOutcome.cancelledMid → o.c2 = true) ∧
     (o.c2 = true → o.c3 = true) ∧
     (o.urllib = AttemptOutcome.cancelledMid → o.c3 = true)))

/-- Result of one execution of `run`: the strategies attempted in order, the
events emitted in order, and the value of `is_cancelled` at the point where
`run` returned (its last read of the flag on the executed path). -/
structure RunResult where
  attempted : List Strategy
  events : List Event
  cancelObserved : Bool
deriving DecidableEq, Repr

/-- Last section of `run` (lines 189-197): `download_with_urllib` is
attempted; on success the terminal event is emitted unless cancelled; if it
fails too, the all-methods-failed terminal failure is emitted unless
cancelled. -/
def runUrllib (o : RunOracle) (att : List Strategy) (evs : List Event) : RunResult :=
  let evs2 := evs ++ o.urllibProg.map Event.prog
  if o.urllib = AttemptOutcome.ok then
    { attempted := att ++ [Strategy.simple],
      events := evs2 ++ (if !o.c3 then [Event.fin true] else []),
      cancelObserved := o.c3 }
  else
    { attempted := att ++ [Strategy.simple],
      events := evs2 ++ (if !o.c3 then [Event.fin false] else []),
      cancelObserved := o.c3 }

/-- Middle section of `run` (lines 182-187): when `is_direct_link()`,
`download_with_requests` is attempted; on a `True` return the terminal event
is emitted unless cancelled and `run` returns; on a `False` return (failure
OR mid-transfer cancellation) execution falls through to
`download_with_urllib` without re-reading `is_cancelled`. -/
def runAfterRich (url : String) (o : RunOracle) (att : List Strategy)
    (evs : List Event) : RunResult :=
  if is_direct_link url then
    let evs2 := evs ++ o.requestsProg.map Event.prog
    if o.requests = AttemptOutcome.ok then
      { attempted := att ++ [Strategy.chunked],
        events := evs2 ++ (if !o.c2 then [Event.fin true] else []),
        cancelObserved := o.c2 }
    else runUrllib o (att ++ [Strategy.chunked]) evs2
  else runUrllib o att evs

/-- `DownloadThread.run` (lines 157-201).  The yt-dlp attempt comes first:
if it returns normally, the success event is emitted and `run` returns —
but only when `is_cancelled` is clear; when the flag is set the success
branch falls through to the direct-link section.  If the attempt raises
(plain failure or the progress hook's cancellation raise), the handler
returns when `is_cancelled` is set and otherwise continues with the
fallback strategies. -/
def run (url : String) (o : RunOracle) : RunResult :=
  let richEvents := o.richProg.map Event.prog
  if o.rich = AttemptOutcome.ok then
    if !o.c1 then
      { attempted := [Strategy.rich], events := richEvents ++ [Event.fin true],
        cancelObserved := false }
    else runAfterRich url o [Strategy.rich] richEvents
  else
    if o.c1 then
      { attempted := [Strategy.rich], events := richEvents, cancelObserved := true }
    else runAfterRich url o [Strategy.rich] richEvents

/-! ## Helper lemmas -/

/-- Looking up the mutated key after an in-place update applies the update to
the looked-up entry, provided the update preserves the key. -/
theorem lookup_update_eq (s : List DownloadInfo) (url : String)
    (f : DownloadInfo → DownloadInfo) (hf : ∀ d, (f d).url = d.url) :
    lookupDownload (updateDownload s url f) url = (lookupDownload s url).map f := by
  induction s with
  | nil => rfl
  | cons d rest ih =>
    show lookupDownload
        ((if (d.url == url) then f d else d) :: updateDownload rest url f) url
      = Option.map f (lookupDownload (d :: rest) url)
    by_cases h : d.url = url
    · rw [if_pos (by simp [h])]
      show List.find? (fun x => x.url == url) (f d :: updateDownload rest url f)
          = Option.map f (List.find? (fun x => x.url == url) (d :: rest))
      rw [List.find?_cons_of_pos _ (by simp [hf, h]),
        List.find?_cons_of_pos _ (by simp [h])]
      rfl
    · rw [if_neg (by simp [h])]
      show List.find? (fun x => x.url == url) (d :: updateDownload rest url f)
          = Option.map f (List.find? (fun x => x.url == url) (d :: rest))
      rw [List.find?_cons_of_neg _ (by simp [h]),
        List.find?_cons_of_neg _ (by simp [h])]
      exact ih

/-- Progress events contain no terminal event. -/
theorem filter_isFin_map_prog (l : List Rat) :
    (l.map Event.prog).filter Event.isFin = [] := by
  induction l with
  | nil => rfl
  | cons p rest ih => simp [List.filter, Event.isFin, ih]

/-- Folding key-deletions over a list of keys removes exactly the entries
whose key occurs in the list. -/
theorem foldl_remove_eq_filter (us : List String) (xs : List DownloadInfo) :
    us.foldl (fun m u => m.filter (fun d => d.url != u)) xs
      = xs.filter (fun d => !(us.contains d.url)) := by
  induction us generalizing xs with
  | nil => simp
  | cons u rest ih =>
    rw [List.foldl_cons, ih, List.filter_filter]
    apply List.filter_congr
    intro d _
    by_cases h : d.url = u
    · simp [h]
    · simp [h]

/-- A `download_finished` event on a present entry records `COMPLETED` or
`ERROR` according to its success flag, regardless of the prior status. -/
theorem download_finished_status (s : List DownloadInfo) (url : String)
    (success : Bool) (d : DownloadInfo) (h : lookupDownload s url = some d) :
    (lookupDownload (download_finished s url success) url).map DownloadInfo.status
      = some (if success then DownloadStatus.completed else DownloadStatus.error) := by
  simp only [download_finished, h]
  rw [lookup_update_eq s url
    (fun d' => { d' with status := if success then DownloadStatus.completed
                          else DownloadStatus.error })
    (fun d' => rfl), h]
  rfl

/-- `cancel_download` never removes an entry. -/
theorem cancel_keeps_present (s : List DownloadInfo) (url : String)
    (d : DownloadInfo) (h : lookupDownload s url = some d) :
    ∃ d', lookupDownload (cancel_download s url) url = some d' := by
  cases hth : d.thread with
  | none =>
    refine ⟨d, ?_⟩
    simp only [cancel_download, h, hth]
  | some t =>
    have hcd : cancel_download s url
        = updateDownload s url (fun d' =>
            { d' with
              thread := d'.thread.map (fun t' => { t' with is_cancelled := true }),
              status := DownloadStatus.cancelled }) := by
      simp only [cancel_download, h, hth]
    rw [hcd, lookup_update_eq s url
      (fun d' =>
        { d' with
          thread := d'.thread.map (fun t' => { t' with is_cancelled := true }),
          status := DownloadStatus.cancelled })
      (fun d' => rfl), h]
    exact ⟨_, rfl⟩

/-! ## Claims -/

/-- C1, counterexample: add a URL, cancel it (status `Cancelled`, a terminal
state), then let the worker's terminal success event arrive; the recorded
status becomes `Completed`, not `Cancelled` — a terminal state is left
again, and `Cancel` loses the race. -/
theorem C1_counterexample :
    (lookupDownload (cancel_download (add_download [] "http://u/a") "http://u/a")
        "http://u/a").map DownloadInfo.status = some DownloadStatus.cancelled ∧
    (lookupDownload
        (download_finished
          (cancel_download (add_download [] "http://u/a") "http://u/a")
          "http://u/a" true)
        "http://u/a").map DownloadInfo.status = some DownloadStatus.completed := by
  exact ⟨rfl, rfl⟩

/-- C1, amended: terminal statuses are not absorbing.  If a worker's
terminal success/failure event arrives after `Cancel` was requested for a
URL that is present, `download_finished` unconditionally overwrites the
recorded `Cancelled` with `Completed` (success) or `Error` (failure): the
event's flag, not the earlier cancellation, determines the final status. -/
theorem C1_amended_thm (s : List DownloadInfo) (url : String) (success : Bool)
    (h : (lookupDownload s url).isSome = true) :
    (lookupDownload (download_finished (cancel_download s url) url success)
        url).map DownloadInfo.status
      = some (if success then DownloadStatus.completed else DownloadStatus.error) := by
  rw [Option.isSome_iff_exists] at h
  obtain ⟨d, hd⟩ := h
  obtain ⟨d', hd'⟩ := cancel_keeps_present s url d hd
  exact download_finished_status _ _ _ _ hd'

/-- Witness for C1: the amended theorem applied at a concrete one-entry
state. -/
theorem C1_witness :
    (lookupDownload
        (download_finished
          (cancel_download
            [{ url := "http://u/a", status := DownloadStatus.downloading,
               progress := 0, filename := "Pending...",
               thread := some { is_paused := false, is_cancelled := false } }]
            "http://u/a")
          "http://u/a" false)
        "http://u/a").map DownloadInfo.status = some DownloadStatus.error := by
  exact C1_amended_thm
    [{ url := "http://u/a", status := DownloadStatus.downloading,
       progress := 0, filename := "Pending...",
       thread := some { is_paused := false, is_cancelled := false } }]
    "http://u/a" false rfl

/-- C7: re-adding a URL already present in the `downloads` map is a no-op:
the state (map contents, worker threads, per-download fields) is unchanged. -/
theorem C7_thm (s : List DownloadInfo) (raw url : String)
    (hsplit : splitUrls raw = [url]) (hstrip : pyStrip url = url)
    (hmem : (lookupDownload s url).isSome = true) :
    add_download s raw = s := by
  unfold add_download
  rw [hsplit]
  show addOneUrl s url = s
  cases hlk : lookupDownload s url with
  | none => rw [hlk] at hmem; simp at hmem
  | some d => simp [addOneUrl, hstrip, hlk]

/-- Witness for C7: re-adding a present URL at a concrete state. -/
theorem C7_witness :
    add_download
      [{ url := "http://u/a", status := DownloadStatus.downloading,
         progress := 0, filename := "Pending...",
         thread := some { is_paused := false, is_cancelled := false } }]
      "http://u/a"
    = [{ url := "http://u/a", status := DownloadStatus.downloading,
         progress := 0, filename := "Pending...",
         thread := some { is_paused := false, is_cancelled := false } }] := by
  exact C7_thm
    [{ url := "http://u/a", status := DownloadStatus.downloading,
       progress := 0, filename := "Pending...",
       thread := some { is_paused := false, is_cancelled := false } }]
    "http://u/a" "http://u/a" rfl rfl rfl

/-- C8: adding the raw text with three comma/newline-separated URLs creates
exactly the three Downloads with the trimmed URLs as ids, in order. -/
theorem C8_thm :
    (add_download [] "http://x/a.mp4, http://x/b.mkv\nhttp://x/c").map
        DownloadInfo.url
      = ["http://x/a.mp4", "http://x/b.mkv", "http://x/c"] := by
  exact rfl

/-- C9: `clear_completed_downloads` removes exactly the Downloads whose
status is `Completed`, `Cancelled` or `Error` — none in `Queued`,
`Downloading` or `Paused` — and reports the number removed (0 when none
qualify).  The hypothesis that the map's keys are distinct is the
dictionary invariant of `self.downloads`. -/
theorem C9_thm (s : List DownloadInfo)
    (hnd : (s.map DownloadInfo.url).Nodup) :
    (clear_completed_downloads s).1
        = s.filter (fun d => !(completed_statuses.contains d.status)) ∧
    (clear_completed_downloads s).2
        = (s.filter (fun d => completed_statuses.contains d.status)).length := by
  refine ⟨?_, ?_⟩
  · show (((s.filter (fun d => completed_statuses.contains d.status)).map
        DownloadInfo.url).foldl (fun m u => m.filter (fun d => d.url != u)) s) = _
    rw [foldl_remove_eq_filter]
    apply List.filter_congr
    intro d hd
    cases hc : completed_statuses.contains d.status with
    | true =>
      simp [hc, List.contains, List.elem_eq_mem]
      exact ⟨d, ⟨hd, by simpa [List.contains, List.elem_eq_mem] using hc⟩, rfl⟩
    | false =>
      simp [hc, List.contains, List.elem_eq_mem]
      intro x hx hxs hxu
      have hdd : x = d := List.inj_on_of_nodup_map hnd hx hd hxu
      rw [hdd] at hxs
      simp [List.contains, List.elem_eq_mem, hxs] at hc
  · show ((s.filter (fun d => completed_statuses.contains d.status)).map
        DownloadInfo.url).length
      = (s.filter (fun d => completed_statuses.contains d.status)).length
    exact List.length_map _ _

/-- Witness for C9: a concrete two-entry state, one active and one
completed; clearing removes the completed one and reports 1. -/
theorem C9_witness :
    (clear_completed_downloads
        [{ url := "http://u/a", status := DownloadStatus.downloading,
           progress := 0, filename := "a" },
         { url := "http://u/b", status := DownloadStatus.completed,
           progress := 100, filename := "b" }]).1
      = [{ url := "http://u/a", status := DownloadStatus.downloading,
           progress := 0, filename := "a" }] ∧
    (clear_completed_downloads
        [{ url := "http://u/a", status := DownloadStatus.downloading,
           progress := 0, filename := "a" },
         { url := "http://u/b", status := DownloadStatus.completed,
           progress := 100, filename := "b" }]).2 = 1 := by
  have h := C9_thm
    [{ url := "http://u/a", status := DownloadStatus.downloading,
       progress := 0, filename := "a" },
     { url := "http://u/b", status := DownloadStatus.completed,
       progress := 100, filename := "b" }]
    (by simp)
  exact ⟨h.1.trans (by rfl), h.2.trans (by rfl)⟩

/-- C10: `toggle_pause` is a single pause/resume toggle.  With an attached
thread, `Downloading` becomes `Paused` with the worker's `is_paused` flag
set, `Paused` becomes `Downloading` with the flag cleared, every other
status leaves the state untouched; absent entry or absent thread also
leaves the state untouched. -/
theorem C10_thm (s : List DownloadInfo) (url : String) :
    (∀ d t, lookupDownload s url = some d → d.thread = some t →
       ((d.status = DownloadStatus.downloading →
           lookupDownload (toggle_pause s url) url
             = some { d with status := DownloadStatus.paused,
                             thread := some { t with is_paused := true } }) ∧
        (d.status = DownloadStatus.paused →
           lookupDownload (toggle_pause s url) url
             = some { d with status := DownloadStatus.downloading,
                             thread := some { t with is_paused := false } }) ∧
        (d.status ≠ DownloadStatus.downloading → d.status ≠ DownloadStatus.paused →
           toggle_pause s url = s))) ∧
    (∀ d, lookupDownload s url = some d → d.thread = none →
       toggle_pause s url = s) ∧
    (lookupDownload s url = none → toggle_pause s url = s) := by
  refine ⟨?_, ?_, ?_⟩
  · intro d t hlk hth
    refine ⟨?_, ?_, ?_⟩
    · intro hst
      have htp : toggle_pause s url
          = updateDownload s url (fun d' =>
              { d' with status := DownloadStatus.paused,
                        thread := d'.thread.map
                          (fun t' => { t' with is_paused := true }) }) := by
        simp [toggle_pause, hlk, hth, hst]
      rw [htp, lookup_update_eq s url
        (fun d' =>
          { d' with status := DownloadStatus.paused,
                    thread := d'.thread.map
                      (fun t' => { t' with is_paused := true }) })
        (fun d' => rfl), hlk]
      simp [hth]
    · intro hst
      have htp : toggle_pause s url
          = updateDownload s url (fun d' =>
              { d' with status := DownloadStatus.downloading,
                        thread := d'.thread.map
                          (fun t' => { t' with is_paused := false }) }) := by
        simp [toggle_pause, hlk, hth, hst]
      rw [htp, lookup_update_eq s url
        (fun d' =>
          { d' with status := DownloadStatus.downloading,
                    thread := d'.thread.map
                      (fun t' => { t' with is_paused := false }) })
        (fun d' => rfl), hlk]
      simp [hth]
    · intro hnd hnp
      simp only [toggle_pause, hlk, hth, if_neg hnd, if_neg hnp]
  · intro d hlk hth
    simp only [toggle_pause, hlk, hth]
  · intro hlk
    simp only [toggle_pause, hlk]

/-- Witness for C10: pausing a concrete downloading entry. -/
theorem C10_witness :
    lookupDownload
        (toggle_pause
          [{ url := "http://u/a", status := DownloadStatus.downloading,
             progress := 0, filename := "a",
             thread := some { is_paused := false, is_cancelled := false } }]
          "http://u/a")
        "http://u/a"
      = some { url := "http://u/a", status := DownloadStatus.paused,
               progress := 0, filename := "a",
               thread := some { is_paused := true, is_cancelled := false } } := by
  exact (((C10_thm
    [{ url := "http://u/a", status := DownloadStatus.downloading,
       progress := 0, filename := "a",
       thread := some { is_paused := false, is_cancelled := false } }]
    "http://u/a").1
    { url := "http://u/a", status := DownloadStatus.downloading,
      progress := 0, filename := "a",
      thread := some { is_paused := false, is_cancelled := false } }
    { is_paused := false, is_cancelled := false } rfl rfl).1 rfl)

/-- C2, counterexample: for the URL `http://x/a.mp4?d=1` the PATH component
(`/a.mp4`) ends in `.mp4`, so the claim requires `ChunkedHttpStrategy` to be
attempted after the rich extractor fails; but `is_direct_link` tests the
WHOLE url string, which ends in `?d=1`, so the chunked strategy is skipped
and the worker goes straight to the simple strategy. -/
theorem C2_counterexample :
    spec_path_ends_in_video_ext "http://x/a.mp4?d=1" = true ∧
    is_direct_link "http://x/a.mp4?d=1" = false ∧
    (run "http://x/a.mp4?d=1"
      { rich := AttemptOutcome.failed, richProg := [], c1 := false,
        requests := AttemptOutcome.failed, requestsProg := [], c2 := false,
        urllib := AttemptOutcome.failed, urllibProg := [], c3 := false }).attempted
      = [Strategy.rich, Strategy.simple] := by
  exact ⟨rfl, rfl, rfl⟩

/-- C2, amended: in a run where no cancellation is observed, the rich
strategy is attempted first; the chunked strategy is attempted exactly when
the rich attempt did not succeed and the WHOLE URL, lowercased, ends in one
of the video extensions (`is_direct_link`, not the path-based test); the
simple strategy is attempted exactly when the rich attempt did not succeed
and either the URL is not a direct link or the chunked attempt did not
succeed. -/
theorem C2_amended_thm (url : String) (o : RunOracle)
    (h1 : o.c1 = false) (h2 : o.c2 = false) (h3 : o.c3 = false) :
    (run url o).attempted.head? = some Strategy.rich ∧
    ((Strategy.chunked ∈ (run url o).attempted)
      ↔ (o.rich ≠ AttemptOutcome.ok ∧ is_direct_link url = true)) ∧
    ((Strategy.simple ∈ (run url o).attempted)
      ↔ (o.rich ≠ AttemptOutcome.ok ∧
          (is_direct_link url = false ∨ o.requests ≠ AttemptOutcome.ok))) := by
  by_cases hr : o.rich = AttemptOutcome.ok <;>
  cases hdl : is_direct_link url <;>
  by_cases hq : o.requests = AttemptOutcome.ok <;>
  by_cases hu : o.urllib = AttemptOutcome.ok <;>
    simp [run, runAfterRich, runUrllib, h1, h2, h3, hr, hdl, hq, hu]

/-- Witness for C2: the chunked-strategy characterization at a concrete
direct-link URL and a concrete no-cancellation oracle. -/
theorem C2_witness :
    (Strategy.chunked ∈ (run "http://x/v.webm"
      { rich := AttemptOutcome.failed, richProg := [], c1 := false,
        requests := AttemptOutcome.failed, requestsProg := [], c2 := false,
        urllib := AttemptOutcome.ok, urllibProg := [], c3 := false }).attempted)
      ↔ (AttemptOutcome.failed ≠ AttemptOutcome.ok ∧
          is_direct_link "http://x/v.webm" = true) := by
  exact (C2_amended_thm "http://x/v.webm"
    { rich := AttemptOutcome.failed, richProg := [], c1 := false,
      requests := AttemptOutcome.failed, requestsProg := [], c2 := false,
      urllib := AttemptOutcome.ok, urllibProg := [], c3 := false }
    rfl rfl rfl).2.1

/-- C3, counterexample: the rich attempt fails without cancellation, then
the chunked attempt observes the cancel flag mid-transfer
(`download_with_requests` returns `False` at the chunk-boundary check); the
claim requires the worker to stop, but `run` performs no cancellation check
on that path and still starts the simple strategy. -/
theorem C3_counterexample :
    RunOracle.wf
      { rich := AttemptOutcome.failed, richProg := [], c1 := false,
        requests := AttemptOutcome.cancelledMid, requestsProg := [30], c2 := true,
        urllib := AttemptOutcome.failed, urllibProg := [], c3 := true } ∧
    run "http://x/a.mp4"
      { rich := AttemptOutcome.failed, richProg := [], c1 := false,
        requests := AttemptOutcome.cancelledMid, requestsProg := [30], c2 := true,
        urllib := AttemptOutcome.failed, urllibProg := [], c3 := true }
      = { attempted := [Strategy.rich, Strategy.chunked, Strategy.simple],
          events := [Event.prog 30], cancelObserved := true } := by
  exact ⟨by decide, rfl⟩

/-- C3, amended: cancellation does not always stop the fallback chain — the
worker may start further strategy attempts after cancellation was observed
(see the counterexample) — but a run that ends with the cancel flag
observed emits no terminal event at all, so no success/failure outcome is
reported in place of the cancellation. -/
theorem C3_amended_thm (url : String) (o : RunOracle) (hwf : o.wf)
    (hc : (run url o).cancelObserved = true) :
    ((run url o).events).filter Event.isFin = [] := by
  obtain ⟨w1, w2, w3, w4, w5⟩ := hwf
  by_cases hr : o.rich = AttemptOutcome.ok <;>
  cases hdl : is_direct_link url <;>
  by_cases hq : o.requests = AttemptOutcome.ok <;>
  by_cases hu : o.urllib = AttemptOutcome.ok <;>
  cases hf1 : o.c1 <;> cases hf2 : o.c2 <;> cases hf3 : o.c3 <;>
    simp_all [run, runAfterRich, runUrllib, filter_isFin_map_prog,
      List.filter_append]

/-- Witness for C3: a run cancelled during the rich attempt emits no
terminal event. -/
theorem C3_witness :
    ((run "http://u/v"
      { rich := AttemptOutcome.cancelledMid, richProg := [], c1 := true,
        requests := AttemptOutcome.failed, requestsProg := [], c2 := true,
        urllib := AttemptOutcome.failed, urllibProg := [], c3 := true }).events).filter
        Event.isFin = [] := by
  exact C3_amended_thm "http://u/v"
    { rich := AttemptOutcome.cancelledMid, richProg := [], c1 := true,
      requests := AttemptOutcome.failed, requestsProg := [], c2 := true,
      urllib := AttemptOutcome.failed, urllibProg := [], c3 := true }
    (by decide) rfl

/-- C4, counterexample: a run cancelled during the rich attempt emits a
progress event but NO terminal event at all — not "exactly one" as the
claim requires for runs in which cancellation occurred. -/
theorem C4_counterexample :
    RunOracle.wf
      { rich := AttemptOutcome.cancelledMid, richProg := [50], c1 := true,
        requests := AttemptOutcome.failed, requestsProg := [], c2 := true,
        urllib := AttemptOutcome.failed, urllibProg := [], c3 := true } ∧
    run "http://u/v"
      { rich := AttemptOutcome.cancelledMid, richProg := [50], c1 := true,
        requests := AttemptOutcome.failed, requestsProg := [], c2 := true,
        urllib := AttemptOutcome.failed, urllibProg := [], c3 := true }
      = { attempted := [Strategy.rich], events := [Event.prog 50],
          cancelObserved := true } := by
  exact ⟨by decide, rfl⟩

/-- C4, amended: a run that ends without the cancel flag observed emits
exactly one terminal event, and that terminal event is the last event of
the run; a run that ends with the cancel flag observed emits no terminal
event at all. -/
theorem C4_amended_thm (url : String) (o : RunOracle) (hwf : o.wf) :
    ((run url o).cancelObserved = true →
        ((run url o).events).filter Event.isFin = []) ∧
    ((run url o).cancelObserved = false →
        ∃ b, ((run url o).events).filter Event.isFin = [Event.fin b] ∧
             ((run url o).events).getLast? = some (Event.fin b)) := by
  obtain ⟨w1, w2, w3, w4, w5⟩ := hwf
  by_cases hr : o.rich = AttemptOutcome.ok <;>
  cases hdl : is_direct_link url <;>
  by_cases hq : o.requests = AttemptOutcome.ok <;>
  by_cases hu : o.urllib = AttemptOutcome.ok <;>
  cases hf1 : o.c1 <;> cases hf2 : o.c2 <;> cases hf3 : o.c3 <;>
    simp_all [run, runAfterRich, runUrllib, filter_isFin_map_prog,
      List.filter_append, List.getLast?_concat, Event.isFin, List.filter]

/-- Witness for C4: a no-cancellation run where every strategy fails emits
exactly the terminal failure event, last. -/
theorem C4_witness :
    ((run "http://u/v"
      { rich := AttemptOutcome.failed, richProg := [], c1 := false,
        requests := AttemptOutcome.failed, requestsProg := [], c2 := false,
        urllib := AttemptOutcome.failed, urllibProg := [], c3 := false }).events).filter
        Event.isFin = [Event.fin false] := by
  obtain ⟨b, hb1, hb2⟩ := (C4_amended_thm "http://u/v"
    { rich := AttemptOutcome.failed, richProg := [], c1 := false,
      requests := AttemptOutcome.failed, requestsProg := [], c2 := false,
      urllib := AttemptOutcome.failed, urllibProg := [], c3 := false }
    (by decide)).2 rfl
  cases b with
  | false => exact hb1
  | true => exact absurd hb1 (by decide)

/-- C5 (code bug): for a URL whose path has an empty percent-decoded
basename (here `http://x/`, path `/`, basename empty), the claimed
timestamp fallback `video_<unixSeconds>.mp4` is never produced: the module
does not import `time`, so the fallback line raises `NameError`, the
surrounding `except` catches it, and both HTTP strategies fail instead of
proceeding. -/
theorem C5_eval :
    requests_file_name "http://x/" = Except.error "NameError" ∧
    download_with_requests_outcome "http://x/" true = false ∧
    urllib_file_name "http://x/" = Except.error "NameError" ∧
    download_with_urllib_outcome "http://x/" true = false := by
  exact ⟨rfl, rfl, rfl, rfl⟩

/-- C6, counterexample: the urllib `report_progress` callback at
`count = 1`, `block_size = 8192`, `total_size = 100` (a 100-byte file read
with the default 8 KiB block) emits the percentage 8192, far above 100 —
the value is never clamped. -/
theorem C6_counterexample :
    report_progress_percent 1 8192 100 = some 8192 ∧ (100 : Rat) < 8192 := by
  constructor
  · norm_num [report_progress_percent]
  · norm_num

/-- C6, amended: the chunked strategy's percentage lies in [0,100] whenever
the bytes delivered do not exceed the announced content length; the urllib
callback's percentage is nonnegative but not bounded by 100 (the
`count * block_size` byte estimate overshoots `total_size` on the final
block, as the counterexample shows). -/
theorem C6_amended_thm (downloaded total_size : Nat)
    (hdt : downloaded ≤ total_size) (ht : 0 < total_size)
    (count block_size T : Int) (hc : 0 ≤ count) (hb : 0 ≤ block_size)
    (p : Rat) (hp : report_progress_percent count block_size T = some p) :
    (0 ≤ requests_progress_percent downloaded total_size ∧
     requests_progress_percent downloaded total_size ≤ 100) ∧
    0 ≤ p := by
  refine ⟨⟨?_, ?_⟩, ?_⟩
  · unfold requests_progress_percent
    positivity
  · unfold requests_progress_percent
    have h1 : ((downloaded : Rat) / (total_size : Rat)) ≤ 1 := by
      rw [div_le_one (by exact_mod_cast ht)]
      exact_mod_cast hdt
    calc ((downloaded : Rat) / (total_size : Rat)) * 100
        ≤ 1 * 100 := mul_le_mul_of_nonneg_right h1 (by norm_num)
      _ = 100 := by norm_num
  · unfold report_progress_percent at hp
    by_cases hT : T > 0
    · rw [if_pos hT] at hp
      have hp' : (((count * block_size : Int) : Rat) / (T : Rat)) * 100 = p :=
        Option.some.inj hp
      rw [← hp']
      have h0 : (0 : Rat) ≤ ((count * block_size : Int) : Rat) := by
        exact_mod_cast mul_nonneg hc hb
      have hT0 : (0 : Rat) ≤ (T : Rat) := by exact_mod_cast le_of_lt hT
      exact mul_nonneg (div_nonneg h0 hT0) (by norm_num)
    · rw [if_neg hT] at hp
      exact absurd hp (by simp)

/-- Witness for C6: the bounds at a concrete chunk (1 of 2 bytes) and a
concrete urllib callback value. -/
theorem C6_witness :
    (0 ≤ requests_progress_percent 1 2 ∧ requests_progress_percent 1 2 ≤ 100) ∧
    (0 : Rat) ≤ 0 := by
  exact C6_amended_thm 1 2 (by norm_num) (by norm_num) 0 0 1 (le_refl 0) (le_refl 0)
    0 (by norm_num [report_progress_percent])

end VD
